import Mathlib

/-!
Shallow embedding of the OAuth 2.0 relay in `src/oauth.py`:
the PKCE utility, the JWT token codec, the `/register`, `/authorize`,
`/callback` and `/token` endpoint handlers, and the request gate
(`extract_bearer_token` / `validate_request`).

Modelling conventions:
* Python dicts (`_oauth_state_storage`, `_authorization_codes`,
  `_registered_clients`) become `SMap α := String → Option α`,
  with pointwise insert/erase.
* `datetime` values become `Int` timestamps in seconds;
  `timedelta(minutes=10)` is `600`, `timedelta(hours=1)` is `3600`.
* Optional query parameters become `Option String`; Python truthiness of
  a possibly-missing string (`if not x:`) is `(x.getD "" = "")`, which is
  true exactly for `None` and `""`.
* The SHA-256/base64url hash inside `generate_code_challenge` is an
  explicit parameter `hash : String → String`; the code only ever
  compares hashes for equality.
* Network effects (the Google exchange in `/token`) are an explicit
  `UpstreamResult` parameter: the handler's behaviour after the
  mark-used step is a function of that result.
* JWTs (library `jwt.encode`/`jwt.decode`, HS256) are modelled as a
  payload paired with the signing key; `jwt.decode` rejects a wrong key
  (`InvalidTokenError`) and an `exp` in the past (`ExpiredSignatureError`,
  raised by PyJWT exactly when `exp < now`).
-/

namespace OAuthRelay

/-- A Python dict keyed by strings, as a total function to `Option`. -/
def SMap (α : Type) : Type := String → Option α

namespace SMap

def empty {α : Type} : SMap α := fun _ => none

/-- `d[k] = v` -/
def insert {α : Type} (m : SMap α) (k : String) (v : α) : SMap α :=
  fun k' => if k' = k then some v else m k'

/-- `del d[k]` -/
def erase {α : Type} (m : SMap α) (k : String) : SMap α :=
  fun k' => if k' = k then none else m k'

@[simp] theorem empty_apply {α : Type} (k : String) :
    (empty : SMap α) k = none := rfl

@[simp] theorem insert_apply {α : Type} (m : SMap α) (k k' : String) (v : α) :
    (m.insert k v) k' = if k' = k then some v else m k' := rfl

@[simp] theorem erase_apply {α : Type} (m : SMap α) (k k' : String) :
    (m.erase k) k' = if k' = k then none else m k' := rfl

end SMap

/-- Bool-valued list prefix test (structural recursion, so the kernel can
evaluate it on concrete inputs). -/
def isPrefixList : List Char → List Char → Bool
  | [], _ => true
  | _ :: _, [] => false
  | c :: cs, d :: ds => c == d && isPrefixList cs ds

/-- Python `s.startswith(pre)`. -/
def pyStartswith (s pre : String) : Bool := isPrefixList pre.data s.data

/-- Python `s[n:]` (slicing by code points). -/
def pyDrop (s : String) (n : Nat) : String := String.mk (s.data.drop n)

/-- Python truthiness of an optional string: `not x` holds for `None` and `""`. -/
def strFalsy (x : Option String) : Bool := x.getD "" = ""

@[simp] theorem strFalsy_none : strFalsy none = true := rfl
@[simp] theorem strFalsy_some (s : String) : strFalsy (some s) = (s = "") := by
  simp [strFalsy, Option.getD]

/-! ### Configuration (module-level environment constants in `oauth.py`) -/

/-- Environment-derived configuration read at module load:
`GOOGLE_CLIENT_ID`, `GOOGLE_CLIENT_SECRET`, `OAUTH_REDIRECT_URI`,
`JWT_SECRET_KEY`. An unset variable is the empty string (`os.getenv(_, "")`). -/
structure Config where
  google_client_id : String
  google_client_secret : String
  oauth_redirect_uri : String
  jwt_secret_key : String
deriving Repr, DecidableEq

/-- `JWT_EXPIRY_HOURS = 1` -/
def JWT_EXPIRY_HOURS : Int := 1

/-! ### PKCE utility -/

/-- `generate_code_challenge`: base64url-unpadded SHA-256 of the verifier.
The digest pipeline is the `hash` parameter. -/
def generate_code_challenge (hash : String → String) (code_verifier : String) :
    String :=
  hash code_verifier

/-- `verify_code_challenge`: recompute the challenge and compare. -/
def verify_code_challenge (hash : String → String)
    (code_verifier code_challenge : String) : Bool :=
  generate_code_challenge hash code_verifier = code_challenge

/-! ### JWT token codec (`create_jwt_token` / `validate_jwt_token`) -/

/-- Identity claims returned by Google's userinfo endpoint; `dict.get`
of a missing key is `None`. -/
structure UserInfo where
  sub : Option String
  email : Option String
  name : Option String
  picture : Option String
deriving Repr, DecidableEq

/-- The payload `create_jwt_token` signs. -/
structure JwtPayload where
  sub : Option String
  email : Option String
  name : Option String
  picture : Option String
  iat : Int
  exp : Int
deriving Repr, DecidableEq

/-- A signed token: payload plus the key it was signed with. -/
structure JwtToken where
  payload : JwtPayload
  key : String
deriving Repr, DecidableEq

/-- `create_jwt_token(user_info)`: payload with `iat = now`,
`exp = now + timedelta(hours=JWT_EXPIRY_HOURS)`, signed with
`JWT_SECRET_KEY`. -/
def create_jwt_token (secret : String) (now : Int) (user_info : UserInfo) :
    JwtToken :=
  { payload :=
      { sub := user_info.sub
        email := user_info.email
        name := user_info.name
        picture := user_info.picture
        iat := now
        exp := now + JWT_EXPIRY_HOURS * 3600 }
    key := secret }

/-- `validate_jwt_token(token)`: `jwt.decode` with the shared secret.
A wrong signature raises `InvalidTokenError`, an expired token raises
`ExpiredSignatureError` (PyJWT: expired iff `exp < now`); both are caught
and become `None`. -/
def validate_jwt_token (secret : String) (now : Int) (t : JwtToken) :
    Option JwtPayload :=
  if t.key ≠ secret then none
  else if t.payload.exp < now then none
  else some t.payload

/-! ### Request gate -/

/-- `extract_bearer_token(authorization)`: `None` on falsy input, the
suffix after `"Bearer "` when that prefix is present, else `None`. -/
def extract_bearer_token (authorization : String) : Option String :=
  if authorization = "" then none
  else if pyStartswith authorization "Bearer " then
    some (pyDrop authorization 7)
  else none

/-- `validate_request(authorization)`. `envToken` is
`os.getenv("MCP_AUTH_TOKEN")` (`none` when unset); `validateJwt` is the
string-level `validate_jwt_token` closed over the secret and clock.
Python's `if not authorization:` sends both a missing header and an
empty-string header to the environment fallback; `if not token:` after
extraction also rejects an exactly-`"Bearer "` header without validating. -/
def validate_request (envToken : Option String)
    (validateJwt : String → Option JwtPayload)
    (authorization : Option String) : Option JwtPayload :=
  if strFalsy authorization then
    match envToken with
    | some t => if t = "" then none else validateJwt t
    | none => none
  else
    match extract_bearer_token (authorization.getD "") with
    | some tok => if tok = "" then none else validateJwt tok
    | none => none

/-- Python `x in l` for a possibly-missing string `x`: `None` is never a
member of a list of strings. -/
def optMem (x : Option String) (l : List String) : Bool :=
  match x with
  | some u => l.contains u
  | none => false

/-! ### Server state: the three module-level dicts -/

/-- A `_registered_clients` record (the fields `/authorize` reads, plus
the registration metadata `/register` stores). -/
structure ClientInfo where
  client_id : String
  client_name : String
  redirect_uris : List String
  grant_types : List String
  response_types : List String
  client_id_issued_at : Int
deriving Repr, DecidableEq

/-- An `_oauth_state_storage` entry, keyed by `state`. At the point it is
stored, `client_id` and `code_challenge` have passed truthiness checks and
are plain strings; `redirect_uri` may be Python `None`. -/
structure PendingAuth where
  code_challenge : String
  code_challenge_method : String
  client_id : String
  redirect_uri : Option String
  created_at : Int
deriving Repr, DecidableEq

/-- An `_authorization_codes` entry, keyed by the upstream `code`. -/
structure AuthCodeData where
  code : String
  code_challenge : String
  code_challenge_method : String
  client_id : String
  created_at : Int
  used : Bool
deriving Repr, DecidableEq

/-- The three module-level in-memory maps. -/
structure ServerState where
  oauth_state_storage : SMap PendingAuth
  authorization_codes : SMap AuthCodeData
  registered_clients : SMap ClientInfo

/-- Fresh process state: all three dicts empty. -/
def ServerState.init : ServerState :=
  { oauth_state_storage := SMap.empty
    authorization_codes := SMap.empty
    registered_clients := SMap.empty }

/-! ### `/register` -/

/-- The body of a `POST /register` request, after `json()` defaulting. -/
structure RegisterRequest where
  redirect_uris : List String
  client_name : String
  grant_types : List String
  response_types : List String
deriving Repr, DecidableEq

inductive RegisterOutcome where
  /-- 400 JSON `{error, error_description}` -/
  | errorResp (error error_description : String) (status : Nat)
  /-- 201 JSON with the stored client record -/
  | created (info : ClientInfo)
deriving Repr, DecidableEq

/-- `register` (POST path). `tok` models `secrets.token_urlsafe(16)`. -/
def register (now : Int) (tok : String) (r : RegisterRequest)
    (st : ServerState) : RegisterOutcome × ServerState :=
  if r.redirect_uris = [] then
    (.errorResp "invalid_redirect_uri" "redirect_uris is required" 400, st)
  else if ¬ r.grant_types.contains "authorization_code" then
    (.errorResp "invalid_client_metadata"
      "authorization_code grant type is required" 400, st)
  else
    let client_id := "dynamic-" ++ tok
    let info : ClientInfo :=
      { client_id := client_id
        client_name := r.client_name
        redirect_uris := r.redirect_uris
        grant_types := r.grant_types
        response_types := r.response_types
        client_id_issued_at := now }
    (.created info,
      { st with registered_clients := st.registered_clients.insert client_id info })

/-! ### `/authorize` -/

/-- Query parameters of `GET /authorize`. `state` and
`code_challenge_method` are read with defaults (`""` and `"S256"`),
the rest are `query_params.get(..)` and may be absent. -/
structure AuthorizeParams where
  client_id : Option String
  redirect_uri : Option String
  state : String
  code_challenge : Option String
  code_challenge_method : String
deriving Repr, DecidableEq

inductive AuthorizeOutcome where
  /-- 500 JSON: missing Google credentials -/
  | configError
  /-- 400 JSON `{error, error_description}` -/
  | errorResp (error error_description : String) (status : Nat)
  /-- 302 to Google's authorization endpoint carrying our
  `GOOGLE_CLIENT_ID`, the server callback `OAUTH_REDIRECT_URI`, the
  caller's `state`, and (when supplied) the caller's PKCE challenge. -/
  | redirectToGoogle (state : String) (code_challenge : Option String)
      (code_challenge_method : String)
deriving Repr, DecidableEq

/-- `authorize`. -/
def authorize (cfg : Config) (now : Int) (p : AuthorizeParams)
    (st : ServerState) : AuthorizeOutcome × ServerState :=
  if cfg.google_client_id = "" ∨ cfg.google_client_secret = "" then
    (.configError, st)
  else if strFalsy p.client_id then
    (.errorResp "invalid_request" "Missing client_id" 400, st)
  else
    let cid := p.client_id.getD ""
    -- resolve the callback redirect URI per client class;
    -- `none` aborts with the given error response
    let resolved : AuthorizeOutcome ⊕ Option String :=
      if pyStartswith cid "dynamic-" then
        match st.registered_clients cid with
        | none =>
            Sum.inl (.errorResp "invalid_client" "Unknown client_id" 400)
        | some info =>
            if ¬ optMem p.redirect_uri info.redirect_uris then
              Sum.inl (.errorResp "invalid_request" "Invalid redirect_uri" 400)
            else
              Sum.inr p.redirect_uri
      else
        -- `OAUTH_REDIRECT_URI or redirect_uri`
        Sum.inr (if cfg.oauth_redirect_uri ≠ "" then some cfg.oauth_redirect_uri
                 else p.redirect_uri)
    match resolved with
    | Sum.inl err => (err, st)
    | Sum.inr callback_redirect_uri =>
        let st' :=
          if p.state ≠ "" ∧ ¬ strFalsy p.code_challenge then
            { st with oauth_state_storage :=
                (st.oauth_state_storage.insert p.state
                  { code_challenge := p.code_challenge.getD ""
                    code_challenge_method := p.code_challenge_method
                    client_id := cid
                    redirect_uri := callback_redirect_uri
                    created_at := now }) }
          else st
        (.redirectToGoogle p.state p.code_challenge p.code_challenge_method, st')

/-! ### `/callback` -/

/-- Query parameters of `GET /callback`. -/
structure CallbackParams where
  code : Option String
  state : String
deriving Repr, DecidableEq

inductive CallbackOutcome where
  /-- 400 JSON `{"error": "OAuth callback error: ..."}` -/
  | errorResp (status : Nat)
  /-- 302 back to the downstream client's callback with `{code, state}` -/
  | redirectToClient (uri code state : String)
  /-- 200 JSON "Authorization code received. Use the token endpoint ..." -/
  | codeReceivedMessage
  /-- fell through to the direct-browser branch: immediate upstream
  exchange of `code` and a rendered HTML token page (network-dependent) -/
  | directBrowser (code : String)
deriving Repr, DecidableEq

/-- `callback`. The direct-browser branch performs network I/O; it is
represented by the `directBrowser` outcome, which leaves the maps
untouched (that branch never writes them). -/
def callback (now : Int) (p : CallbackParams) (st : ServerState) :
    CallbackOutcome × ServerState :=
  if strFalsy p.code then (.errorResp 400, st)
  else
    let code := p.code.getD ""
    if h : p.state ≠ "" ∧ (st.oauth_state_storage p.state).isSome then
      let oauth_state := (st.oauth_state_storage p.state).get h.2
      let client_redirect_uri := oauth_state.redirect_uri
      let auth_code_data : AuthCodeData :=
        { code := code
          code_challenge := oauth_state.code_challenge
          code_challenge_method := oauth_state.code_challenge_method
          client_id := oauth_state.client_id
          created_at := now
          used := false }
      let st' :=
        { st with
          authorization_codes := st.authorization_codes.insert code auth_code_data
          oauth_state_storage := st.oauth_state_storage.erase p.state }
      if ¬ strFalsy client_redirect_uri ∧
          pyStartswith (client_redirect_uri.getD "") "http://localhost" then
        (.redirectToClient (client_redirect_uri.getD "") code p.state, st')
      else
        (.codeReceivedMessage, st')
    else
      (.directBrowser code, st)

/-! ### `/token` -/

/-- Form fields of `POST /token`: `str(form.get(x, ""))`, so a missing
field is `""`. -/
structure TokenForm where
  grant_type : String
  code : String
  code_verifier : String
  client_id : String
deriving Repr, DecidableEq

/-- Result of the network interaction with Google that `/token` performs
after marking the code used: the code-for-token exchange and the
userinfo fetch. -/
inductive UpstreamResult where
  /-- token endpoint returned non-200 -/
  | exchangeFail
  /-- token endpoint returned 200 without an `access_token` -/
  | noAccessToken
  /-- userinfo endpoint returned non-200 -/
  | userinfoFail
  /-- both calls succeeded, yielding identity claims -/
  | ok (user_info : UserInfo)
deriving Repr, DecidableEq

inductive TokenOutcome where
  /-- 400/500 JSON `{error, error_description}` -/
  | errorResp (error error_description : String) (status : Nat)
  /-- 200 JSON `{access_token, token_type: "Bearer", expires_in, scope}` -/
  | success (access_token : JwtToken) (expires_in : Int)
deriving Repr, DecidableEq

/-- `token`. `hash` is the PKCE digest pipeline, `u` the outcome of the
upstream exchange performed after the mark-used step. -/
def token (cfg : Config) (hash : String → String) (now : Int)
    (f : TokenForm) (u : UpstreamResult) (st : ServerState) :
    TokenOutcome × ServerState :=
  if f.grant_type ≠ "authorization_code" then
    (.errorResp "unsupported_grant_type"
      "Grant type must be authorization_code" 400, st)
  else if f.code = "" then
    (.errorResp "invalid_request" "Missing authorization code" 400, st)
  else if f.code_verifier = "" then
    (.errorResp "invalid_request" "Missing code_verifier (PKCE required)" 400, st)
  else
    match st.authorization_codes f.code with
    | none =>
        (.errorResp "invalid_grant" "Invalid or expired authorization code" 400, st)
    | some auth_code_data =>
        if auth_code_data.used then
          (.errorResp "invalid_grant" "Invalid or expired authorization code" 400,
            st)
        else if f.client_id ≠ "" ∧ auth_code_data.client_id ≠ f.client_id then
          (.errorResp "invalid_client" "Client ID mismatch" 400, st)
        else if now - auth_code_data.created_at > 600 then
          (.errorResp "invalid_grant" "Authorization code expired" 400, st)
        else if auth_code_data.code_challenge ≠ "" ∧
            ¬ verify_code_challenge hash f.code_verifier
                auth_code_data.code_challenge then
          (.errorResp "invalid_grant" "Invalid code_verifier" 400, st)
        else
          -- mark code as used, then exchange with Google
          let st' :=
            { st with authorization_codes :=
                (st.authorization_codes.insert f.code
                  { auth_code_data with used := true }) }
          match u with
          | .exchangeFail =>
              (.errorResp "server_error"
                "Failed to exchange authorization code with Google" 500, st')
          | .noAccessToken =>
              (.errorResp "server_error"
                "No access token received from Google" 500, st')
          | .userinfoFail =>
              (.errorResp "server_error"
                "Failed to get user info from Google" 500, st')
          | .ok user_info =>
              (.success (create_jwt_token cfg.jwt_secret_key now user_info)
                (JWT_EXPIRY_HOURS * 3600), st')

/-! ### Helper lemmas about `/token` -/

/-- The code `c` is stored and already marked used. -/
def codeUsed (st : ServerState) (c : String) : Prop :=
  ∃ e, st.authorization_codes c = some e ∧ e.used = true

/-- A `/token` form that passes the three parameter checks. -/
def wellFormedTokenForm (f : TokenForm) : Prop :=
  f.grant_type = "authorization_code" ∧ f.code ≠ "" ∧ f.code_verifier ≠ ""

instance (f : TokenForm) : Decidable (wellFormedTokenForm f) := by
  unfold wellFormedTokenForm; infer_instance

/-! ### Reachability: the server's state transitions -/

/-- One request handled by any of the four state-mutating endpoints. -/
inductive Step : ServerState → ServerState → Prop where
  | register (now : Int) (tok : String) (r : RegisterRequest)
      (st : ServerState) : Step st (register now tok r st).2
  | authorize (cfg : Config) (now : Int) (p : AuthorizeParams)
      (st : ServerState) : Step st (authorize cfg now p st).2
  | callback (now : Int) (p : CallbackParams) (st : ServerState) :
      Step st (callback now p st).2
  | token (cfg : Config) (hash : String → String) (now : Int)
      (f : TokenForm) (u : UpstreamResult) (st : ServerState) :
      Step st (token cfg hash now f u st).2

/-- States reachable from a fresh process by any request sequence. -/
inductive Reachable : ServerState → Prop where
  | init : Reachable ServerState.init
  | step {st st' : ServerState} : Reachable st → Step st st' → Reachable st'

/-- Every stored pending authorization and every stored authorization
code carries a non-empty PKCE challenge. -/
def ChallengesNonEmpty (st : ServerState) : Prop :=
  (∀ s pa, st.oauth_state_storage s = some pa → pa.code_challenge ≠ "") ∧
  (∀ c e, st.authorization_codes c = some e → e.code_challenge ≠ "")

/-! ### Concrete fixtures used to instantiate the theorems -/

def cfgFx : Config :=
  { google_client_id := "google-client-id"
    google_client_secret := "google-client-secret"
    oauth_redirect_uri := "https://relay.example/callback"
    jwt_secret_key := "relay-secret" }

/-- Stand-in digest pipeline: the handlers only compare digests for
equality, so any injection works for concrete runs. -/
def hashFx : String → String := fun s => s ++ "|sha256"

def userFx : UserInfo :=
  { sub := some "sub-1", email := some "u@example.com"
    name := some "U", picture := none }

def payloadFx : JwtPayload :=
  { sub := some "sub-1", email := some "u@example.com"
    name := none, picture := none, iat := 0, exp := 3600 }

/-- A string-level JWT validator accepting exactly the env token. -/
def vjFx : String → Option JwtPayload :=
  fun s => if s = "env-token" then some payloadFx else none

def acdFx : AuthCodeData :=
  { code := "code-xyz", code_challenge := "v-good|sha256"
    code_challenge_method := "S256", client_id := "dynamic-fixture"
    created_at := 100, used := false }

/-- State holding one unused authorization code. -/
def stWithCodeFx : ServerState :=
  { oauth_state_storage := SMap.empty
    authorization_codes := SMap.empty.insert "code-xyz" acdFx
    registered_clients := SMap.empty }

def tokenFormFx : TokenForm :=
  { grant_type := "authorization_code", code := "code-xyz"
    code_verifier := "v-good", client_id := "dynamic-fixture" }

def tokenFormBadVerifierFx : TokenForm :=
  { tokenFormFx with code_verifier := "v-evil" }

/-- Pending authorization whose downstream redirect URI is a localhost
URL (the relay redirect branch). -/
def pendingLocalFx : PendingAuth :=
  { code_challenge := "v-good|sha256", code_challenge_method := "S256"
    client_id := "dynamic-fixture"
    redirect_uri := some "http://localhost:9999/cb", created_at := 100 }

/-- Pending authorization whose downstream redirect URI is not a
localhost URL. -/
def pendingRemoteFx : PendingAuth :=
  { pendingLocalFx with redirect_uri := some "https://client.example/cb" }

def stPendingLocalFx : ServerState :=
  { ServerState.init with
      oauth_state_storage := SMap.empty.insert "state-1" pendingLocalFx }

def stPendingRemoteFx : ServerState :=
  { ServerState.init with
      oauth_state_storage := SMap.empty.insert "state-1" pendingRemoteFx }

def cbFx : CallbackParams := { code := some "code-xyz", state := "state-1" }

/-- `/authorize` request from an unregistered client whose id does not
carry the `dynamic-` marker. -/
def authorizePlainFx : AuthorizeParams :=
  { client_id := some "unregistered-client"
    redirect_uri := some "https://client.example/cb"
    state := "", code_challenge := none, code_challenge_method := "S256" }

/-- `/authorize` request with an unknown `dynamic-` client id. -/
def authorizeDynFx : AuthorizeParams :=
  { authorizePlainFx with client_id := some "dynamic-unknown" }

/-- `/authorize` request from a first-party (non-dynamic) client with
state and PKCE challenge supplied. -/
def authorizeFirstPartyFx : AuthorizeParams :=
  { client_id := some "claude-code"
    redirect_uri := some "https://client.example/cb"
    state := "state-1", code_challenge := some "v-good|sha256"
    code_challenge_method := "S256" }

def stReach1Fx : ServerState :=
  (authorize cfgFx 100 authorizeFirstPartyFx ServerState.init).2

def stReach2Fx : ServerState := (callback 150 cbFx stReach1Fx).2

/-- The authorization code stored in `stReach2Fx`. -/
def acdReachFx : AuthCodeData :=
  { code := "code-xyz", code_challenge := "v-good|sha256"
    code_challenge_method := "S256", client_id := "claude-code"
    created_at := 150, used := false }

theorem token_of_used (cfg : Config) (hash : String → String) (now : Int)
    (f : TokenForm) (u : UpstreamResult) (st : ServerState)
    (hwf : wellFormedTokenForm f) (hused : codeUsed st f.code) :
    token cfg hash now f u st =
      (.errorResp "invalid_grant" "Invalid or expired authorization code" 400,
        st) := by
  obtain ⟨hg, hc, hv⟩ := hwf
  obtain ⟨e, hl, hu⟩ := hused
  simp only [token, hl, hg, hu]
  simp [hc, hv]

theorem token_expired (cfg : Config) (hash : String → String) (now : Int)
    (f : TokenForm) (u : UpstreamResult) (st : ServerState) (acd : AuthCodeData)
    (hwf : wellFormedTokenForm f)
    (hl : st.authorization_codes f.code = some acd)
    (hu : acd.used = false)
    (hcl : f.client_id = "" ∨ acd.client_id = f.client_id)
    (hexp : now - acd.created_at > 600) :
    token cfg hash now f u st =
      (.errorResp "invalid_grant" "Authorization code expired" 400, st) := by
  obtain ⟨hg, hc, hv⟩ := hwf
  have hcl' : ¬ (f.client_id ≠ "" ∧ acd.client_id ≠ f.client_id) := by tauto
  simp only [token, hl, hg, hu]
  simp [hc, hv, hcl', hexp]

theorem token_pkce_mismatch (cfg : Config) (hash : String → String) (now : Int)
    (f : TokenForm) (u : UpstreamResult) (st : ServerState) (acd : AuthCodeData)
    (hwf : wellFormedTokenForm f)
    (hl : st.authorization_codes f.code = some acd)
    (hu : acd.used = false)
    (hcl : f.client_id = "" ∨ acd.client_id = f.client_id)
    (hexp : ¬ now - acd.created_at > 600)
    (hch : acd.code_challenge ≠ "")
    (hpkce : ¬ verify_code_challenge hash f.code_verifier acd.code_challenge) :
    token cfg hash now f u st =
      (.errorResp "invalid_grant" "Invalid code_verifier" 400, st) := by
  obtain ⟨hg, hc, hv⟩ := hwf
  have hcl' : ¬ (f.client_id ≠ "" ∧ acd.client_id ≠ f.client_id) := by tauto
  simp only [token, hl, hg, hu]
  simp [hc, hv, hcl', hexp, hch, hpkce]

/-- Reaching the mark-used step: all guards pass.  The resulting state has
the entry marked used, whatever the upstream exchange then does. -/
theorem token_marks_used (cfg : Config) (hash : String → String) (now : Int)
    (f : TokenForm) (u : UpstreamResult) (st : ServerState) (acd : AuthCodeData)
    (hwf : wellFormedTokenForm f)
    (hl : st.authorization_codes f.code = some acd)
    (hu : acd.used = false)
    (hcl : f.client_id = "" ∨ acd.client_id = f.client_id)
    (hexp : ¬ now - acd.created_at > 600)
    (hpkce : ¬ (acd.code_challenge ≠ "" ∧
      ¬ verify_code_challenge hash f.code_verifier acd.code_challenge)) :
    (token cfg hash now f u st).2.authorization_codes f.code =
      some { acd with used := true } := by
  obtain ⟨hg, hc, hv⟩ := hwf
  have hcl' : ¬ (f.client_id ≠ "" ∧ acd.client_id ≠ f.client_id) := by tauto
  simp only [token, hl]
  rw [if_neg (not_not_intro hg), if_neg hc, if_neg hv,
    if_neg (by simp [hu]), if_neg hcl', if_neg hexp, if_neg hpkce]
  cases u <;> simp [SMap.insert]

/-- No `/token` call un-marks a used code: `codeUsed` is preserved. -/
theorem token_preserves_used (cfg : Config) (hash : String → String)
    (now : Int) (f : TokenForm) (u : UpstreamResult) (st : ServerState)
    (c : String) (h : codeUsed st c) :
    codeUsed (token cfg hash now f u st).2 c := by
  obtain ⟨e, hl, hu⟩ := h
  unfold token
  split
  · exact ⟨e, hl, hu⟩
  split
  · exact ⟨e, hl, hu⟩
  split
  · exact ⟨e, hl, hu⟩
  split
  · exact ⟨e, hl, hu⟩
  case _ acd hacd =>
    split
    · exact ⟨e, hl, hu⟩
    split
    · exact ⟨e, hl, hu⟩
    split
    · exact ⟨e, hl, hu⟩
    split
    · exact ⟨e, hl, hu⟩
    · cases u <;>
        · simp only [SMap.insert]
          by_cases hc : c = f.code
          · exact ⟨{ acd with used := true }, by simp [hc], rfl⟩
          · exact ⟨e, by simp [hc, hl], hu⟩

/-! ### Claim theorems -/

/-- **C3.** For every `/token` request carrying a code that maps to a
stored, unused, unexpired `AuthorizationCode` (and passing the parameter
and client-id checks that precede the PKCE step), if the supplied
`code_verifier`'s digest differs from the stored `code_challenge`, the
response is the `invalid_grant` error and no upstream exchange or token
issuance occurs: the outcome is the same error for every upstream result
`u` and the state is returned unchanged. -/
theorem C3_pkce_mismatch_invalid_grant (cfg : Config)
    (hash : String → String) (now : Int) (f : TokenForm)
    (u : UpstreamResult) (st : ServerState) (acd : AuthCodeData)
    (hwf : wellFormedTokenForm f)
    (hl : st.authorization_codes f.code = some acd)
    (hu : acd.used = false)
    (hcl : f.client_id = "" ∨ acd.client_id = f.client_id)
    (hexp : ¬ now - acd.created_at > 600)
    (hch : acd.code_challenge ≠ "")
    (hdig : generate_code_challenge hash f.code_verifier ≠ acd.code_challenge) :
    token cfg hash now f u st =
      (.errorResp "invalid_grant" "Invalid code_verifier" 400, st) :=
  token_pkce_mismatch cfg hash now f u st acd hwf hl hu hcl hexp hch
    (by simp [verify_code_challenge, hdig])

/-- Witness for C3 at a concrete state, code and wrong verifier. -/
theorem C3_pkce_mismatch_invalid_grant_witness :
    wellFormedTokenForm tokenFormBadVerifierFx ∧
    stWithCodeFx.authorization_codes "code-xyz" = some acdFx ∧
    acdFx.used = false ∧
    acdFx.client_id = tokenFormBadVerifierFx.client_id ∧
    ¬ (200 : Int) - acdFx.created_at > 600 ∧
    acdFx.code_challenge ≠ "" ∧
    generate_code_challenge hashFx "v-evil" ≠ acdFx.code_challenge ∧
    token cfgFx hashFx 200 tokenFormBadVerifierFx (.ok userFx) stWithCodeFx =
      (.errorResp "invalid_grant" "Invalid code_verifier" 400, stWithCodeFx) :=
  ⟨by decide, rfl, rfl, rfl, by decide, by decide, by decide,
    C3_pkce_mismatch_invalid_grant cfgFx hashFx 200 tokenFormBadVerifierFx
      (.ok userFx) stWithCodeFx acdFx (by decide) rfl rfl (Or.inr rfl)
      (by decide) (by decide) (by decide)⟩

/-- **C6.** For every `/token` request whose code maps to a stored
`AuthorizationCode` with `used = false` that was created more than
10 minutes (600 seconds) before the request, the response is the
`invalid_grant` error with the expiry description, even when the code is
otherwise valid (matching client, any verifier, any upstream result). -/
theorem C6_expired_code_invalid_grant (cfg : Config)
    (hash : String → String) (now : Int) (f : TokenForm)
    (u : UpstreamResult) (st : ServerState) (acd : AuthCodeData)
    (hwf : wellFormedTokenForm f)
    (hl : st.authorization_codes f.code = some acd)
    (hu : acd.used = false)
    (hcl : f.client_id = "" ∨ acd.client_id = f.client_id)
    (hexp : now - acd.created_at > 600) :
    token cfg hash now f u st =
      (.errorResp "invalid_grant" "Authorization code expired" 400, st) :=
  token_expired cfg hash now f u st acd hwf hl hu hcl hexp

/-- Witness for C6: a code created at time 100, presented at time 701,
with a correct verifier. -/
theorem C6_expired_code_invalid_grant_witness :
    wellFormedTokenForm tokenFormFx ∧
    stWithCodeFx.authorization_codes "code-xyz" = some acdFx ∧
    acdFx.used = false ∧
    acdFx.client_id = tokenFormFx.client_id ∧
    (701 : Int) - acdFx.created_at > 600 ∧
    token cfgFx hashFx 701 tokenFormFx (.ok userFx) stWithCodeFx =
      (.errorResp "invalid_grant" "Authorization code expired" 400,
        stWithCodeFx) :=
  ⟨by decide, rfl, rfl, rfl, by decide,
    C6_expired_code_invalid_grant cfgFx hashFx 701 tokenFormFx (.ok userFx)
      stWithCodeFx acdFx (by decide) rfl rfl (Or.inr rfl) (by decide)⟩

/-- **C7.** A token produced by `create_jwt_token` is accepted by
`validate_jwt_token`, returning the embedded claims, at any clock time
strictly before `expires_at = issued_at + 1 hour`, and is rejected
(`None`, the unauthorized outcome, via `ExpiredSignatureError`) at any
clock time strictly after `expires_at`. -/
theorem C7_jwt_roundtrip (secret : String) (now vnow : Int)
    (user : UserInfo) :
    (vnow < now + JWT_EXPIRY_HOURS * 3600 →
      validate_jwt_token secret vnow (create_jwt_token secret now user) =
        some { sub := user.sub, email := user.email, name := user.name,
               picture := user.picture, iat := now,
               exp := now + JWT_EXPIRY_HOURS * 3600 }) ∧
    (vnow > now + JWT_EXPIRY_HOURS * 3600 →
      validate_jwt_token secret vnow (create_jwt_token secret now user) =
        none) := by
  constructor <;> intro h <;>
    simp [create_jwt_token, validate_jwt_token] <;> omega

/-- Witness for C7: a token issued at time 0 is accepted at time 10 and
rejected at time 4000. -/
theorem C7_jwt_roundtrip_witness :
    ((10 : Int) < 0 + JWT_EXPIRY_HOURS * 3600 ∧
      validate_jwt_token "relay-secret" 10
          (create_jwt_token "relay-secret" 0 userFx) =
        some { sub := userFx.sub, email := userFx.email, name := userFx.name,
               picture := userFx.picture, iat := 0,
               exp := 0 + JWT_EXPIRY_HOURS * 3600 }) ∧
    ((4000 : Int) > 0 + JWT_EXPIRY_HOURS * 3600 ∧
      validate_jwt_token "relay-secret" 4000
          (create_jwt_token "relay-secret" 0 userFx) = none) :=
  ⟨⟨by decide, (C7_jwt_roundtrip "relay-secret" 0 10 userFx).1 (by decide)⟩,
    ⟨by decide, (C7_jwt_roundtrip "relay-secret" 0 4000 userFx).2 (by decide)⟩⟩

/-- **C8 counterexample.** With an `Authorization` header that is
present but empty, `validate_request` consults and validates the
operator-supplied environment token, although the claim permits the
fallback only when the header is entirely absent. -/
theorem C8_counterexample :
    validate_request (some "env-token") vjFx (some "") = some payloadFx ∧
    (some "" : Option String) ≠ none := by
  constructor
  · decide
  · decide

/-- **C8 (amended).** `validate_request` accepts only header values with
the exact `"Bearer "` marker: any non-empty header not starting with it
yields `None` for every environment token (so the fallback is not
consulted); a header starting with it has its remainder validated as the
token (an empty remainder is rejected outright); and when the header is
absent — or present but empty, which Python truthiness treats the same —
the operator-supplied environment token is validated instead. -/
theorem C8_request_gate (env : Option String)
    (vj : String → Option JwtPayload) :
    (∀ a : String, a ≠ "" → pyStartswith a "Bearer " = false →
      validate_request env vj (some a) = none) ∧
    (∀ a : String, a ≠ "" → pyStartswith a "Bearer " = true →
      validate_request env vj (some a) =
        (if pyDrop a 7 = "" then none else vj (pyDrop a 7))) ∧
    (∀ t : String, t ≠ "" → validate_request (some t) vj none = vj t) ∧
    validate_request none vj none = none := by
  refine ⟨?_, ?_, ?_, ?_⟩
  · intro a ha hpre
    simp [validate_request, extract_bearer_token, ha, hpre]
  · intro a ha hpre
    simp [validate_request, extract_bearer_token, ha, hpre]
  · intro t ht
    simp [validate_request, ht]
  · simp [validate_request]

/-- Witness for C8: a non-bearer header is rejected without the fallback,
a bearer header validates its remainder, an absent header validates the
environment token. -/
theorem C8_request_gate_witness :
    (("Basic xyz" : String) ≠ "" ∧
      pyStartswith "Basic xyz" "Bearer " = false ∧
      validate_request (some "env-token") vjFx (some "Basic xyz") = none) ∧
    (("Bearer tok" : String) ≠ "" ∧
      pyStartswith "Bearer tok" "Bearer " = true ∧
      validate_request (some "env-token") vjFx (some "Bearer tok") =
        (if pyDrop "Bearer tok" 7 = "" then none
         else vjFx (pyDrop "Bearer tok" 7))) ∧
    (("env-token" : String) ≠ "" ∧
      validate_request (some "env-token") vjFx none = vjFx "env-token") :=
  ⟨⟨by decide, by decide,
      (C8_request_gate (some "env-token") vjFx).1 "Basic xyz" (by decide)
        (by decide)⟩,
    ⟨by decide, by decide,
      (C8_request_gate (some "env-token") vjFx).2.1 "Bearer tok" (by decide)
        (by decide)⟩,
    ⟨by decide,
      (C8_request_gate (some "env-token") vjFx).2.2.1 "env-token"
        (by decide)⟩⟩

/-- **C9.** For every `/authorize` request (with Google credentials
configured) whose `client_id` is non-empty and does not start with
`"dynamic-"`, the handler accepts the request as a first-party client:
the outcome is the upstream redirect regardless of the registry (no
registry lookup or `redirect_uri` membership check — the result and the
pending map are the same for every registry), and when a pending entry
is recorded its callback redirect URI is the configured
`OAUTH_REDIRECT_URI` when set, otherwise the caller-supplied
`redirect_uri`. -/
theorem C9_first_party_bypass (cfg : Config) (now : Int)
    (p : AuthorizeParams) (st : ServerState) (cid : String)
    (hcfg1 : cfg.google_client_id ≠ "") (hcfg2 : cfg.google_client_secret ≠ "")
    (hcid : p.client_id = some cid) (hne : cid ≠ "")
    (hdyn : pyStartswith cid "dynamic-" = false) :
    (authorize cfg now p st).1 =
      .redirectToGoogle p.state p.code_challenge p.code_challenge_method ∧
    (∀ regs : SMap ClientInfo,
      (authorize cfg now p { st with registered_clients := regs }).1 =
        (authorize cfg now p st).1 ∧
      (authorize cfg now p
          { st with registered_clients := regs }).2.oauth_state_storage =
        (authorize cfg now p st).2.oauth_state_storage) ∧
    (p.state ≠ "" → ¬ strFalsy p.code_challenge →
      (authorize cfg now p st).2.oauth_state_storage p.state =
        some { code_challenge := p.code_challenge.getD ""
               code_challenge_method := p.code_challenge_method
               client_id := cid
               redirect_uri :=
                 if cfg.oauth_redirect_uri ≠ "" then some cfg.oauth_redirect_uri
                 else p.redirect_uri
               created_at := now }) := by
  have hmain : ∀ st₀ : ServerState,
      authorize cfg now p st₀ =
        (.redirectToGoogle p.state p.code_challenge p.code_challenge_method,
          if p.state ≠ "" ∧ ¬ strFalsy p.code_challenge then
            { st₀ with oauth_state_storage :=
                (st₀.oauth_state_storage.insert p.state
                  { code_challenge := p.code_challenge.getD ""
                    code_challenge_method := p.code_challenge_method
                    client_id := cid
                    redirect_uri :=
                      if cfg.oauth_redirect_uri ≠ "" then
                        some cfg.oauth_redirect_uri
                      else p.redirect_uri
                    created_at := now }) }
          else st₀) := by
    intro st₀
    unfold authorize
    rw [if_neg (by tauto), if_neg (by simp [hcid, hne]), hcid]
    simp only [Option.getD_some, hdyn, Bool.false_eq_true, if_false]
  refine ⟨?_, ?_, ?_⟩
  · rw [hmain st]
  · intro regs
    rw [hmain st, hmain { st with registered_clients := regs }]
    constructor
    · rfl
    · split <;> rfl
  · intro hs hch
    rw [hmain st]
    simp [hs, hch, SMap.insert]

/-- Witness for C9: an unregistered first-party client id is accepted and
the recorded pending entry uses the configured redirect URI. -/
theorem C9_first_party_bypass_witness :
    (cfgFx.google_client_id ≠ "" ∧ cfgFx.google_client_secret ≠ "" ∧
      authorizeFirstPartyFx.client_id = some "claude-code" ∧
      ("claude-code" : String) ≠ "" ∧
      pyStartswith "claude-code" "dynamic-" = false ∧
      ServerState.init.registered_clients "claude-code" = none) ∧
    (authorize cfgFx 100 authorizeFirstPartyFx ServerState.init).1 =
      .redirectToGoogle "state-1" (some "v-good|sha256") "S256" ∧
    (authorize cfgFx 100 authorizeFirstPartyFx
        ServerState.init).2.oauth_state_storage "state-1" =
      some { code_challenge := "v-good|sha256"
             code_challenge_method := "S256"
             client_id := "claude-code"
             redirect_uri := some "https://relay.example/callback"
             created_at := 100 } :=
  ⟨⟨by decide, by decide, rfl, by decide, by decide, rfl⟩,
    (C9_first_party_bypass cfgFx 100 authorizeFirstPartyFx ServerState.init
        "claude-code" (by decide) (by decide) rfl (by decide) (by decide)).1,
    by
      have h := (C9_first_party_bypass cfgFx 100 authorizeFirstPartyFx
        ServerState.init "claude-code" (by decide) (by decide) rfl (by decide)
        (by decide)).2.2 (by decide) (by decide)
      simpa using h⟩

/-- **C5 counterexample.** An unregistered `client_id` without the
`dynamic-` marker is not rejected: `/authorize` proceeds to the upstream
redirect instead of returning a 400, although the registry is empty; and
for an unknown `dynamic-` client the 400 error is `invalid_client`, not
`invalid_request`. -/
theorem C5_counterexample :
    ServerState.init.registered_clients "unregistered-client" = none ∧
    (authorize cfgFx 0 authorizePlainFx ServerState.init).1 =
      .redirectToGoogle "" none "S256" ∧
    (authorize cfgFx 0 authorizeDynFx ServerState.init).1 =
      .errorResp "invalid_client" "Unknown client_id" 400 :=
  ⟨rfl, by decide, by decide⟩

/-- **C5 (amended).** With Google credentials configured, `/authorize`
returns a 400 error with the state unchanged (no pending entry recorded,
no upstream redirect built) when: the `client_id` is missing
(`invalid_request`); the `client_id` has the `dynamic-` marker but is
not registered (`invalid_client`); or the client is a registered dynamic
client and the `redirect_uri` is not in its `redirect_uris` set
(`invalid_request`). Client ids without the `dynamic-` marker are not
checked against the registry. -/
theorem C5_authorize_rejections (cfg : Config) (now : Int)
    (p : AuthorizeParams) (st : ServerState)
    (hcfg1 : cfg.google_client_id ≠ "")
    (hcfg2 : cfg.google_client_secret ≠ "") :
    (strFalsy p.client_id →
      authorize cfg now p st =
        (.errorResp "invalid_request" "Missing client_id" 400, st)) ∧
    (∀ cid : String, p.client_id = some cid →
      pyStartswith cid "dynamic-" = true →
      st.registered_clients cid = none →
      authorize cfg now p st =
        (.errorResp "invalid_client" "Unknown client_id" 400, st)) ∧
    (∀ (cid : String) (info : ClientInfo), p.client_id = some cid →
      pyStartswith cid "dynamic-" = true →
      st.registered_clients cid = some info →
      optMem p.redirect_uri info.redirect_uris = false →
      authorize cfg now p st =
        (.errorResp "invalid_request" "Invalid redirect_uri" 400, st)) := by
  refine ⟨?_, ?_, ?_⟩
  · intro hmiss
    unfold authorize
    rw [if_neg (by tauto), if_pos hmiss]
  · intro cid hcid hdyn hreg
    have hne : cid ≠ "" := by
      rintro rfl
      exact absurd hdyn (by decide)
    unfold authorize
    rw [if_neg (by tauto), if_neg (by simp [hcid, hne]), hcid]
    simp only [Option.getD_some, hdyn, if_true, hreg]
  · intro cid info hcid hdyn hreg hmem
    have hne : cid ≠ "" := by
      rintro rfl
      exact absurd hdyn (by decide)
    unfold authorize
    rw [if_neg (by tauto), if_neg (by simp [hcid, hne]), hcid]
    simp only [Option.getD_some, hdyn, if_true, hreg, hmem]
    simp

/-- Witness for C5 (amended), exercising the unknown-dynamic-client
branch on a concrete request. -/
theorem C5_authorize_rejections_witness :
    (cfgFx.google_client_id ≠ "" ∧ cfgFx.google_client_secret ≠ "") ∧
    (authorizeDynFx.client_id = some "dynamic-unknown" ∧
      pyStartswith "dynamic-unknown" "dynamic-" = true ∧
      ServerState.init.registered_clients "dynamic-unknown" = none) ∧
    authorize cfgFx 0 authorizeDynFx ServerState.init =
      (.errorResp "invalid_client" "Unknown client_id" 400,
        ServerState.init) :=
  ⟨⟨by decide, by decide⟩, ⟨rfl, by decide, rfl⟩,
    (C5_authorize_rejections cfgFx 0 authorizeDynFx ServerState.init
        (by decide) (by decide)).2.1 "dynamic-unknown" rfl (by decide) rfl⟩

/-- **C2 counterexample.** A `/callback` whose matched pending entry
stores a non-localhost downstream redirect URI does not respond with a
redirect: it returns the JSON “authorization code received” message. -/
theorem C2_counterexample :
    stPendingRemoteFx.oauth_state_storage "state-1" = some pendingRemoteFx ∧
    pendingRemoteFx.redirect_uri = some "https://client.example/cb" ∧
    (callback 200 cbFx stPendingRemoteFx).1 = .codeReceivedMessage ∧
    CallbackOutcome.codeReceivedMessage ≠
      .redirectToClient "https://client.example/cb" "code-xyz" "state-1" :=
  ⟨rfl, rfl, by decide, by decide⟩

/-- **C2 (amended).** For every `/callback` request whose non-empty
`state` matches a stored `PendingAuthorization`, the handler deletes the
pending entry and stores an `AuthorizationCode` keyed by the upstream
code, carrying the pending entry's `code_challenge`,
`code_challenge_method` and `client_id`; it responds with a redirect to
the stored downstream `redirect_uri` carrying exactly the upstream code
plus the original state only when that URI is truthy and starts with
`"http://localhost"`; otherwise it responds with the JSON
“code received” message. -/
theorem C2_callback_relay (now : Int) (p : CallbackParams)
    (st : ServerState) (c : String) (os : PendingAuth)
    (hc : p.code = some c) (hcne : c ≠ "") (hs : p.state ≠ "")
    (hos : st.oauth_state_storage p.state = some os) :
    (callback now p st).2.oauth_state_storage p.state = none ∧
    (callback now p st).2.authorization_codes c =
      some { code := c, code_challenge := os.code_challenge
             code_challenge_method := os.code_challenge_method
             client_id := os.client_id, created_at := now, used := false } ∧
    (¬ strFalsy os.redirect_uri →
      pyStartswith (os.redirect_uri.getD "") "http://localhost" = true →
      (callback now p st).1 =
        .redirectToClient (os.redirect_uri.getD "") c p.state) ∧
    ((strFalsy os.redirect_uri ∨
        pyStartswith (os.redirect_uri.getD "") "http://localhost" = false) →
      (callback now p st).1 = .codeReceivedMessage) := by
  have hcond : p.state ≠ "" ∧ (st.oauth_state_storage p.state).isSome :=
    ⟨hs, by rw [hos]; rfl⟩
  have hget : (st.oauth_state_storage p.state).get hcond.2 = os := by
    simp [hos]
  unfold callback
  rw [hc]
  rw [if_neg (by simpa using hcne), dif_pos hcond]
  simp only [hget, Option.getD_some, SMap.insert, SMap.erase]
  refine ⟨by split <;> simp [SMap.erase], by split <;> simp [SMap.insert],
    ?_, ?_⟩
  · intro htruthy hpre
    rw [if_pos ⟨by simpa using htruthy, hpre⟩]
  · intro hfail
    rw [if_neg (by rcases hfail with h | h <;> simp [h])]

/-- Witness for C2 (amended): both response branches on concrete states,
plus the consume-and-store effects. -/
theorem C2_callback_relay_witness :
    (cbFx.code = some "code-xyz" ∧ ("code-xyz" : String) ≠ "" ∧
      ("state-1" : String) ≠ "" ∧
      stPendingLocalFx.oauth_state_storage "state-1" = some pendingLocalFx) ∧
    (callback 150 cbFx stPendingLocalFx).2.oauth_state_storage "state-1" =
      none ∧
    (callback 150 cbFx stPendingLocalFx).2.authorization_codes "code-xyz" =
      some { code := "code-xyz", code_challenge := "v-good|sha256"
             code_challenge_method := "S256", client_id := "dynamic-fixture"
             created_at := 150, used := false } ∧
    (callback 150 cbFx stPendingLocalFx).1 =
      .redirectToClient "http://localhost:9999/cb" "code-xyz" "state-1" ∧
    (callback 200 cbFx stPendingRemoteFx).1 = .codeReceivedMessage := by
  have h := C2_callback_relay 150 cbFx stPendingLocalFx "code-xyz"
    pendingLocalFx rfl (by decide) (by decide) rfl
  have h' := C2_callback_relay 200 cbFx stPendingRemoteFx "code-xyz"
    pendingRemoteFx rfl (by decide) (by decide) rfl
  refine ⟨⟨rfl, by decide, by decide, rfl⟩, h.1, ?_, ?_, ?_⟩
  · simpa using h.2.1
  · simpa using h.2.2.1 (by decide) (by decide)
  · exact h'.2.2.2 (Or.inr (by decide))

/-- **C4 (code evaluated at the failing input).** A `/callback` whose
`state` matches a `PendingAuthorization` created 601 seconds — more than
the 10-minute TTL — before the callback is *not* treated as absent: the
relayed-code path runs, an `AuthorizationCode` is stored and the
redirect carrying the code is returned. The handler never reads
`created_at`. -/
theorem C4_stale_pending_honored :
    stPendingLocalFx.oauth_state_storage "state-1" = some pendingLocalFx ∧
    (701 : Int) - pendingLocalFx.created_at > 600 ∧
    (callback 701 cbFx stPendingLocalFx).1 =
      .redirectToClient "http://localhost:9999/cb" "code-xyz" "state-1" ∧
    (callback 701 cbFx stPendingLocalFx).2.authorization_codes "code-xyz" =
      some { code := "code-xyz", code_challenge := "v-good|sha256"
             code_challenge_method := "S256", client_id := "dynamic-fixture"
             created_at := 701, used := false } :=
  ⟨rfl, by decide, by decide, by decide⟩

/-- **C1.** A stored authorization code is exchangeable at most once:
a `/token` call that reaches the mark-used step leaves the entry with
`used = true` for every upstream result (the flag is set before the
exchange, so an upstream failure does not reset it); every `/token`
call on a state whose entry for that code is used — with any client id,
verifier, clock and upstream result — returns `invalid_grant` and leaves
the state unchanged; and no `/token` call ever un-marks a used code. -/
theorem C1_code_single_use (cfg : Config) (hash : String → String)
    (now : Int) (f : TokenForm) (u : UpstreamResult) (st : ServerState)
    (acd : AuthCodeData)
    (hwf : wellFormedTokenForm f)
    (hl : st.authorization_codes f.code = some acd)
    (hu : acd.used = false)
    (hcl : f.client_id = "" ∨ acd.client_id = f.client_id)
    (hexp : ¬ now - acd.created_at > 600)
    (hpkce : ¬ (acd.code_challenge ≠ "" ∧
      ¬ verify_code_challenge hash f.code_verifier acd.code_challenge)) :
    codeUsed (token cfg hash now f u st).2 f.code ∧
    (∀ (cfg₂ : Config) (hash₂ : String → String) (now₂ : Int)
        (f₂ : TokenForm) (u₂ : UpstreamResult) (st₂ : ServerState),
      codeUsed st₂ f.code → f₂.code = f.code → wellFormedTokenForm f₂ →
      token cfg₂ hash₂ now₂ f₂ u₂ st₂ =
        (.errorResp "invalid_grant" "Invalid or expired authorization code"
          400, st₂)) ∧
    (∀ (cfg₂ : Config) (hash₂ : String → String) (now₂ : Int)
        (f₂ : TokenForm) (u₂ : UpstreamResult) (st₂ : ServerState),
      codeUsed st₂ f.code →
      codeUsed (token cfg₂ hash₂ now₂ f₂ u₂ st₂).2 f.code) := by
  refine ⟨⟨{ acd with used := true },
    token_marks_used cfg hash now f u st acd hwf hl hu hcl hexp hpkce, rfl⟩,
    ?_, ?_⟩
  · intro cfg₂ hash₂ now₂ f₂ u₂ st₂ hused hfc hwf₂
    exact token_of_used cfg₂ hash₂ now₂ f₂ u₂ st₂ hwf₂ (hfc ▸ hused)
  · intro cfg₂ hash₂ now₂ f₂ u₂ st₂ hused
    exact token_preserves_used cfg₂ hash₂ now₂ f₂ u₂ st₂ f.code hused

/-- Witness for C1: first `/token` call whose upstream exchange *fails*
still marks the code used; the identical second call is rejected with
`invalid_grant`. -/
theorem C1_code_single_use_witness :
    (wellFormedTokenForm tokenFormFx ∧
      stWithCodeFx.authorization_codes "code-xyz" = some acdFx ∧
      acdFx.used = false ∧ acdFx.client_id = tokenFormFx.client_id ∧
      ¬ (200 : Int) - acdFx.created_at > 600) ∧
    (token cfgFx hashFx 200 tokenFormFx .exchangeFail stWithCodeFx).1 =
      .errorResp "server_error"
        "Failed to exchange authorization code with Google" 500 ∧
    codeUsed (token cfgFx hashFx 200 tokenFormFx .exchangeFail
      stWithCodeFx).2 "code-xyz" ∧
    token cfgFx hashFx 201 tokenFormFx (.ok userFx)
        (token cfgFx hashFx 200 tokenFormFx .exchangeFail stWithCodeFx).2 =
      (.errorResp "invalid_grant" "Invalid or expired authorization code" 400,
        (token cfgFx hashFx 200 tokenFormFx .exchangeFail stWithCodeFx).2) := by
  have h := C1_code_single_use cfgFx hashFx 200 tokenFormFx .exchangeFail
    stWithCodeFx acdFx (by decide) rfl rfl (Or.inr rfl) (by decide)
    (by decide)
  exact ⟨⟨by decide, rfl, rfl, rfl, by decide⟩, by decide, h.1,
    h.2.1 cfgFx hashFx 201 tokenFormFx (.ok userFx) _ h.1 rfl (by decide)⟩

/-! ### Preservation of `ChallengesNonEmpty` by every endpoint -/

theorem register_preserves_challenges (now : Int) (tok : String)
    (r : RegisterRequest) (st : ServerState)
    (h : ChallengesNonEmpty st) :
    ChallengesNonEmpty (register now tok r st).2 := by
  unfold register
  split
  · exact h
  split
  · exact h
  · exact ⟨h.1, h.2⟩

theorem token_preserves_challenges (cfg : Config) (hash : String → String)
    (now : Int) (f : TokenForm) (u : UpstreamResult) (st : ServerState)
    (h : ChallengesNonEmpty st) :
    ChallengesNonEmpty (token cfg hash now f u st).2 := by
  unfold token
  split
  · exact h
  split
  · exact h
  split
  · exact h
  split
  · exact h
  case _ acd hacd =>
    split
    · exact h
    split
    · exact h
    split
    · exact h
    split
    · exact h
    · have hch : acd.code_challenge ≠ "" → True := fun _ => trivial
      cases u <;>
        · refine ⟨h.1, ?_⟩
          intro c e hce
          simp only [SMap.insert] at hce
          by_cases hc : c = f.code
          · rw [if_pos hc] at hce
            cases hce
            exact h.2 f.code acd hacd
          · rw [if_neg hc] at hce
            exact h.2 c e hce

theorem authorize_preserves_challenges (cfg : Config) (now : Int)
    (p : AuthorizeParams) (st : ServerState)
    (h : ChallengesNonEmpty st) :
    ChallengesNonEmpty (authorize cfg now p st).2 := by
  simp only [authorize]
  split
  · exact h
  split
  · exact h
  split
  · exact h
  · split
    case isTrue hcond =>
      refine ⟨?_, h.2⟩
      intro s pa hpa
      simp only [SMap.insert] at hpa
      by_cases hsp : s = p.state
      · rw [if_pos hsp] at hpa
        cases hpa
        simpa [strFalsy] using hcond.2
      · rw [if_neg hsp] at hpa
        exact h.1 s pa hpa
    case isFalse => exact h

theorem callback_preserves_challenges (now : Int) (p : CallbackParams)
    (st : ServerState) (h : ChallengesNonEmpty st) :
    ChallengesNonEmpty (callback now p st).2 := by
  simp only [callback]
  split
  · exact h
  split
  case isTrue hcond =>
    have hos : st.oauth_state_storage p.state =
        some ((st.oauth_state_storage p.state).get hcond.2) :=
      (Option.some_get hcond.2).symm
    have hchal :
        ((st.oauth_state_storage p.state).get hcond.2).code_challenge ≠ "" :=
      h.1 p.state _ hos
    have hgoal : ChallengesNonEmpty
        { st with
          authorization_codes := st.authorization_codes.insert (p.code.getD "")
            { code := p.code.getD ""
              code_challenge :=
                ((st.oauth_state_storage p.state).get hcond.2).code_challenge
              code_challenge_method :=
                ((st.oauth_state_storage p.state).get
                  hcond.2).code_challenge_method
              client_id := ((st.oauth_state_storage p.state).get
                hcond.2).client_id
              created_at := now
              used := false }
          oauth_state_storage := st.oauth_state_storage.erase p.state } := by
      constructor
      · intro s pa hpa
        simp only [SMap.erase] at hpa
        by_cases hsp : s = p.state
        · rw [if_pos hsp] at hpa
          cases hpa
        · rw [if_neg hsp] at hpa
          exact h.1 s pa hpa
      · intro c e hce
        simp only [SMap.insert] at hce
        by_cases hc : c = p.code.getD ""
        · rw [if_pos hc] at hce
          cases hce
          exact hchal
        · rw [if_neg hc] at hce
          exact h.2 c e hce
    split
    · exact hgoal
    · exact hgoal
  case isFalse => exact h

theorem init_challenges : ChallengesNonEmpty ServerState.init := by
  constructor <;> intro a b hab <;> simp [ServerState.init] at hab

theorem reachable_challenges {st : ServerState} (h : Reachable st) :
    ChallengesNonEmpty st := by
  induction h with
  | init => exact init_challenges
  | step _ hs ih =>
      cases hs with
      | register now tok r st => exact register_preserves_challenges _ _ _ _ ih
      | authorize cfg now p st => exact authorize_preserves_challenges _ _ _ _ ih
      | callback now p st => exact callback_preserves_challenges _ _ _ ih
      | token cfg hash now f u st =>
          exact token_preserves_challenges _ _ _ _ _ _ ih

/-- **C10.** In every reachable server state, every stored
`AuthorizationCode` carries a non-empty `code_challenge` (because
`/authorize` records a pending entry only when both `state` and
`code_challenge` are truthy, and `/callback` copies the pending entry's
challenge); consequently the conditional PKCE check in `/token` — which
is skipped when the stored challenge is falsy — is never skipped: a
call reaching the PKCE step with a non-matching verifier always fails
with `invalid_grant`. -/
theorem C10_relayed_codes_pkce_checked (st : ServerState)
    (h : Reachable st) :
    (∀ c e, st.authorization_codes c = some e → e.code_challenge ≠ "") ∧
    (∀ (cfg : Config) (hash : String → String) (now : Int) (f : TokenForm)
        (u : UpstreamResult) (e : AuthCodeData),
      wellFormedTokenForm f →
      st.authorization_codes f.code = some e → e.used = false →
      (f.client_id = "" ∨ e.client_id = f.client_id) →
      ¬ now - e.created_at > 600 →
      ¬ verify_code_challenge hash f.code_verifier e.code_challenge →
      token cfg hash now f u st =
        (.errorResp "invalid_grant" "Invalid code_verifier" 400, st)) := by
  have hc := (reachable_challenges h).2
  refine ⟨hc, ?_⟩
  intro cfg hash now f u e hwf hl hu hcl hexp hver
  exact token_pkce_mismatch cfg hash now f u st e hwf hl hu hcl hexp
    (hc f.code e hl) hver

/-- Witness for C10: the state reached by `/authorize` then `/callback`
from a fresh process holds a code whose challenge is non-empty. -/
theorem C10_relayed_codes_pkce_checked_witness :
    Reachable stReach2Fx ∧
    stReach2Fx.authorization_codes "code-xyz" = some acdReachFx ∧
    acdReachFx.code_challenge ≠ "" := by
  have hr : Reachable stReach2Fx :=
    Reachable.step
      (Reachable.step Reachable.init
        (Step.authorize cfgFx 100 authorizeFirstPartyFx ServerState.init))
      (Step.callback 150 cbFx stReach1Fx)
  exact ⟨hr, by decide,
    (C10_relayed_codes_pkce_checked stReach2Fx hr).1 "code-xyz" acdReachFx
      (by decide)⟩

end OAuthRelay
